import Mathlib

/-!
Shallow embedding of `play.go` from scgolang/play: a registry of named
synthdefs (`App`) with `Add`, `List`, `Play` and `Run` operations, and the
key=value parameter parsing performed inside `Play`.

Modelling conventions:
  * Go `map[string]T` becomes an association list with overwrite-on-insert
    (`mapInsert`) and first-match lookup (`mapLookup`); `Add` keeps keys
    unique, so first-match lookup agrees with Go map semantics.
  * Go errors are modelled by the inductive `Err`, one constructor per
    error construction site in the source; `Err.message` gives the message
    string each site builds (`errors.Errorf` / `errors.Wrap` with the
    "msg: cause" convention of github.com/pkg/errors).
  * `strings.Split(param, "=")` becomes `splitOnEq`, splitting on every
    `'='` exactly as Go does.
  * `strconv.ParseFloat(s, 32)` becomes `ParseFloat`, which parses the
    decimal syntax (sign, digits with an optional dot, optional exponent)
    into an exact rational. Hexadecimal floats, inf/NaN, digit-separating
    underscores, float32 rounding and range errors are not modelled; no
    claim depends on them.
  * The external playback backend `scid.Play` is an opaque parameter of
    type `Backend`; `none` models a nil error.
  * Printing in `List` is modelled by returning the printed names
    (`App.listNames`); `App.Run` returns the printed lines next to its
    error result.
-/

/-- Opaque stand-in for `sc.UgenFunc`, the caller-supplied signal-generator
capability. Only its identity matters to the registry. -/
abbrev UgenFunc := Nat

/-- `sc.Synthdef` as far as this package observes it: `sc.NewSynthdef(name, f)`
packages the name and the ugen function. -/
structure Synthdef where
  name : String
  f : UgenFunc
deriving DecidableEq, Repr

/-- `sc.NewSynthdef`. -/
def NewSynthdef (name : String) (f : UgenFunc) : Synthdef := ⟨name, f⟩

/-- First-match lookup in an association list: `m[k]` for a Go map. -/
def mapLookup {α : Type} : List (String × α) → String → Option α
  | [], _ => none
  | (k, v) :: rest, key => if k = key then some v else mapLookup rest key

/-- Overwrite-or-append insertion: `m[k] = v` for a Go map. -/
def mapInsert {α : Type} : List (String × α) → String → α → List (String × α)
  | [], key, val => [(key, val)]
  | (k, v) :: rest, key, val =>
    if k = key then (k, val) :: rest else (k, v) :: mapInsert rest key val

/-- The control map built by `Play`: Go `map[string]float32`, with values as
exact rationals. -/
abbrev ControlMap := List (String × ℚ)

deriving instance DecidableEq for Except

/-- The errors `play.go` can construct, one constructor per construction
site. -/
inductive Err where
  /-- `ErrDupl = errors.New("sound is already defined")`. -/
  | dupl
  /-- `errors.Errorf("unrecognized sound: " + sound)`. -/
  | unrecognizedSound (sound : String)
  /-- `errors.Errorf("could not parse key=value from " + param)`. -/
  | malformedParam (param : String)
  /-- `errors.Wrap(err, "parsing control value")` around the
  `strconv.ParseFloat` failure message. -/
  | parsingControlValue (cause : String)
  /-- `errors.Wrap(err, "playing synthdef")` around the backend error. -/
  | playingSynthdef (cause : String)
deriving DecidableEq, Repr

/-- The message string each error site produces (`errors.Wrap` formats as
"msg: cause"). -/
def Err.message : Err → String
  | .dupl => "sound is already defined"
  | .unrecognizedSound sound => "unrecognized sound: " ++ sound
  | .malformedParam param => "could not parse key=value from " ++ param
  | .parsingControlValue cause => "parsing control value: " ++ cause
  | .playingSynthdef cause => "playing synthdef: " ++ cause

/-- `strings.Split(s, "=")` on the character list: split on every `'='`;
the empty string yields one empty segment, as in Go. -/
def splitEq : List Char → List (List Char)
  | [] => [[]]
  | c :: rest =>
    if c = '=' then [] :: splitEq rest
    else
      match splitEq rest with
      | [] => [[c]]
      | s :: ss => (c :: s) :: ss

/-- `strings.Split(param, "=")` as a function on strings. -/
def splitOnEq (s : String) : List String := (splitEq s.data).map String.mk

/-- Numeric value of a digit string, most significant digit first. -/
def digitsVal (cs : List Char) : Nat :=
  cs.foldl (fun acc c => 10 * acc + (c.toNat - Char.toNat '0')) 0

/-- A nonempty all-digit string, or nothing. -/
def parseDigitsAll (cs : List Char) : Option Nat :=
  if cs.isEmpty || !(cs.all Char.isDigit) then none else some (digitsVal cs)

/-- Mantissa of a decimal float: digits with at most one dot, at least one
digit overall; returns its value and the unconsumed suffix. -/
def parseMantissa (cs : List Char) : Option (ℚ × List Char) :=
  let ip := cs.takeWhile Char.isDigit
  let rest := cs.dropWhile Char.isDigit
  match rest with
  | [] => if ip.isEmpty then none else some ((digitsVal ip : ℚ), rest)
  | c :: rest2 =>
    if c = '.' then
      let fp := rest2.takeWhile Char.isDigit
      let rest3 := rest2.dropWhile Char.isDigit
      if ip.isEmpty && fp.isEmpty then none
      else some ((digitsVal ip : ℚ) + (digitsVal fp : ℚ) / (10 : ℚ) ^ fp.length, rest3)
    else if ip.isEmpty then none
    else some ((digitsVal ip : ℚ), rest)

/-- Exponent part after `e`/`E`: optional sign, then digits to the end. -/
def parseExpPart (cs : List Char) : Option Int :=
  match cs with
  | [] => none
  | c :: r =>
    if c = '+' then (parseDigitsAll r).map (fun n => (n : Int))
    else if c = '-' then (parseDigitsAll r).map (fun n => -(n : Int))
    else (parseDigitsAll cs).map (fun n => (n : Int))

/-- Decimal-float recogniser: optional sign, mantissa, optional exponent,
nothing left over. -/
def parseFloatCore (cs : List Char) : Option ℚ :=
  let signAndRest : Bool × List Char :=
    match cs with
    | [] => (false, [])
    | c :: r =>
      if c = '-' then (true, r)
      else if c = '+' then (false, r)
      else (false, cs)
  match parseMantissa signAndRest.2 with
  | none => none
  | some (m, rest) =>
    let signed := if signAndRest.1 then -m else m
    match rest with
    | [] => some signed
    | c :: r =>
      if c = 'e' || c = 'E' then (parseExpPart r).map (fun e => signed * (10 : ℚ) ^ e)
      else none

/-- `strconv.Quote` restricted to strings without characters needing
escapes (none of the claims uses one). -/
def goQuote (s : String) : String := "\"" ++ s ++ "\""

/-- `strconv.ParseFloat(s, 32)`: the parsed value as an exact rational, or
the `strconv` syntax-error message. -/
def ParseFloat (s : String) : Except String ℚ :=
  match parseFloatCore s.data with
  | some q => Except.ok q
  | none =>
    Except.error ("strconv.ParseFloat: parsing " ++ goQuote s ++ ": invalid syntax")

/-- The parameter-parsing loop of `App.Play` (`play.go` lines 74-85):
split each raw parameter on `'='`, require at least two segments, parse
segment 1 as a float and bind it to segment 0, stopping at the first
failure. -/
def parseParams (ctls : ControlMap) : List String → Except Err ControlMap
  | [] => Except.ok ctls
  | param :: rest =>
    match splitOnEq param with
    | k :: v :: _ =>
      match ParseFloat v with
      | Except.error e => Except.error (Err.parsingControlValue e)
      | Except.ok fv => parseParams (mapInsert ctls k fv) rest
    | _ => Except.error (Err.malformedParam param)

/-- The external playback backend `scid.Play`; `none` is a nil error. -/
abbrev Backend := Synthdef → ControlMap → Option String

/-- The `App` struct: the two flag-backed options and the synthdef
registry. The `sync.RWMutex` only guards the map; the sequential
semantics modelled here is what it protects. -/
structure App where
  list : Bool
  sound : String
  m : List (String × Synthdef)

/-- `New`: empty registry, flags at their defaults (`-l` false, `-s` ""). -/
def New : App := { list := false, sound := "", m := [] }

/-- `App.Add`: fail with `ErrDupl` when the name is taken, otherwise store
`sc.NewSynthdef(name, f)` under the name. -/
def App.Add (app : App) (name : String) (f : UgenFunc) : Except Err App :=
  match mapLookup app.m name with
  | some _ => Except.error Err.dupl
  | none => Except.ok { app with m := mapInsert app.m name (NewSynthdef name f) }

/-- `App.List` prints every registered name; modelled as the list of
printed lines (Go map iteration order is unspecified; here it is
registration order). -/
def App.listNames (app : App) : List String := app.m.map Prod.fst

/-- `App.Play`: resolve the sound, then parse the parameters, then invoke
the backend; `errors.Wrap(nil, msg)` is nil, so a nil backend error is
success. -/
def App.Play (app : App) (backend : Backend) (sound : String)
    (params : List String) : Except Err Unit :=
  match mapLookup app.m sound with
  | none => Except.error (Err.unrecognizedSound sound)
  | some sdef =>
    match parseParams [] params with
    | Except.error e => Except.error e
    | Except.ok ctls =>
      match backend sdef ctls with
      | none => Except.ok ()
      | some e => Except.error (Err.playingSynthdef e)

/-- `App.Run`: list and succeed when the `-l` flag is set, otherwise play
`app.sound` with the non-flag arguments. The first component is the
printed output. -/
def App.Run (app : App) (backend : Backend) (args : List String) :
    List String × Except Err Unit :=
  if app.list then (app.listNames, Except.ok ())
  else ([], app.Play backend app.sound args)

/-! ### Helper lemmas -/

/-- Inserting under a key makes it the binding `mapLookup` finds. -/
theorem mapLookup_mapInsert_self {α : Type} (m : List (String × α)) (k : String) (v : α) :
    mapLookup (mapInsert m k v) k = some v := by
  induction m with
  | nil => simp [mapInsert, mapLookup]
  | cons kv rest ih =>
    obtain ⟨k1, v1⟩ := kv
    by_cases hk : k1 = k
    · subst hk
      simp [mapInsert, mapLookup]
    · simp [mapInsert, mapLookup, hk, ih]

/-- A string without `'='` is its own single segment under `splitEq`. -/
theorem splitEq_of_not_mem (cs : List Char) (h : '=' ∉ cs) : splitEq cs = [cs] := by
  induction cs with
  | nil => rfl
  | cons c rest ih =>
    have hc : c ≠ '=' := fun hc => h (hc ▸ List.mem_cons_self c rest)
    have hrest : '=' ∉ rest := fun hr => h (List.mem_cons_of_mem c hr)
    rw [splitEq, if_neg (fun hc2 => hc hc2), ih hrest]

/-- Appending a single `'='` to an `'='`-free string yields exactly two
segments, the second empty. -/
theorem splitEq_append_eq (cs : List Char) (h : '=' ∉ cs) :
    splitEq (cs ++ ['=']) = [cs, []] := by
  induction cs with
  | nil => rfl
  | cons c rest ih =>
    have hc : c ≠ '=' := fun hc => h (hc ▸ List.mem_cons_self c rest)
    have hrest : '=' ∉ rest := fun hr => h (List.mem_cons_of_mem c hr)
    rw [List.cons_append, splitEq, if_neg (fun hc2 => hc hc2), ih hrest]

/-- The parsing loop only ever produces the malformed-parameter error or
the wrapped number-parse error. -/
theorem parseParams_error_shape (ctls : ControlMap) (params : List String) (e : Err)
    (h : parseParams ctls params = Except.error e) :
    (∃ p, e = Err.malformedParam p) ∨ ∃ cause, e = Err.parsingControlValue cause := by
  induction params generalizing ctls with
  | nil => simp [parseParams] at h
  | cons param rest ih =>
    rw [parseParams] at h
    cases hs : splitOnEq param with
    | nil =>
      rw [hs] at h
      left
      exact ⟨param, by injection h with h2; exact h2.symm⟩
    | cons k tail =>
      cases tail with
      | nil =>
        rw [hs] at h
        left
        exact ⟨param, by injection h with h2; exact h2.symm⟩
      | cons v t =>
        rw [hs] at h
        dsimp only at h
        cases hv : ParseFloat v with
        | error cause =>
          rw [hv] at h
          right
          exact ⟨cause, by injection h with h2; exact h2.symm⟩
        | ok fv =>
          rw [hv] at h
          exact ih (mapInsert ctls k fv) h

/-! ### Claims -/

/-- C2: for every unregistered sound name and every raw parameter list,
including malformed ones, `Play` fails with the unrecognized-sound error
naming that sound — name resolution happens before any parameter
parsing. -/
theorem claim_C2 (app : App) (backend : Backend) (sound : String)
    (params : List String) (h : mapLookup app.m sound = none) :
    app.Play backend sound params = Except.error (Err.unrecognizedSound sound) := by
  simp [App.Play, h]

/-- Witness for C2: the empty registry and a parameter that would fail
numeric parsing. -/
theorem claim_C2_witness :
    App.Play New (fun _ _ => none) ("missing") (["a=bad"]) =
      Except.error (Err.unrecognizedSound ("missing")) :=
  claim_C2 New (fun _ _ => none) ("missing") (["a=bad"]) rfl

/-- C3: after `Add(n, f)` succeeds, a second `Add(n, f2)` fails with the
duplicate-name error and the registry still maps `n` to the definition the
first `Add` stored. -/
theorem claim_C3 (app app2 : App) (name : String) (f f2 : UgenFunc)
    (h : app.Add name f = Except.ok app2) :
    app2.Add name f2 = Except.error Err.dupl ∧
    mapLookup app2.m name = some (NewSynthdef name f) := by
  unfold App.Add at h
  cases hl : mapLookup app.m name with
  | some d =>
    rw [hl] at h
    cases h
  | none =>
    rw [hl] at h
    have hm : app2 = { app with m := mapInsert app.m name (NewSynthdef name f) } := by
      injection h with h2
      exact h2.symm
    subst hm
    have hlook := mapLookup_mapInsert_self app.m name (NewSynthdef name f)
    exact ⟨by simp [App.Add, hlook], hlook⟩

/-- Witness for C3: registering "kick" twice on an initially empty app. -/
theorem claim_C3_witness :
    App.Add { list := false, sound := "", m := [("kick", NewSynthdef ("kick") 0)] }
      ("kick") 1 = Except.error Err.dupl ∧
    mapLookup [("kick", NewSynthdef ("kick") 0)] ("kick") =
      some (NewSynthdef ("kick") 0) :=
  claim_C3 New { list := false, sound := "", m := [("kick", NewSynthdef ("kick") 0)] }
    ("kick") 0 1 rfl

/-- C4: when the sound resolves but some parameter fails parsing, `Play`
returns exactly the parse error, whatever the backend is — the backend is
never consulted and no control map escapes. -/
theorem claim_C4 (app : App) (sound : String) (params : List String)
    (sdef : Synthdef) (e : Err) (h1 : mapLookup app.m sound = some sdef)
    (h2 : parseParams [] params = Except.error e) :
    ∀ backend : Backend, app.Play backend sound params = Except.error e := by
  intro backend
  simp [App.Play, h1, h2]

/-- Witness for C4: a registered sound with a parameter lacking `'='`. -/
theorem claim_C4_witness :
    App.Play { list := false, sound := "", m := [("kick", NewSynthdef ("kick") 0)] }
      (fun _ _ => none) ("kick") (["bad"]) =
      Except.error (Err.malformedParam ("bad")) :=
  claim_C4 { list := false, sound := "", m := [("kick", NewSynthdef ("kick") 0)] }
    ("kick") (["bad"]) (NewSynthdef ("kick") 0) (Err.malformedParam ("bad"))
    (by decide) (by decide) (fun _ _ => none)

/-- C5: a raw parameter with no `'='` at all makes parsing fail with the
malformed-parameter error, whose message contains the offending literal. -/
theorem claim_C5 (param : String) (ctls : ControlMap) (rest : List String)
    (h : '=' ∉ param.data) :
    parseParams ctls (param :: rest) = Except.error (Err.malformedParam param) ∧
    (Err.malformedParam param).message = "could not parse key=value from " ++ param := by
  have hs : splitOnEq param = [param] := by
    unfold splitOnEq
    rw [splitEq_of_not_mem param.data h]
    rfl
  refine ⟨?_, rfl⟩
  rw [parseParams, hs]

/-- Witness for C5: the literal parameter "bad". -/
theorem claim_C5_witness :
    parseParams [] (["bad"]) = Except.error (Err.malformedParam ("bad")) ∧
    (Err.malformedParam ("bad")).message = "could not parse key=value from " ++ "bad" :=
  claim_C5 ("bad") [] [] (by decide)

/-- C7: duplicate keys are resolved last-wins — `Parse(["a=1","a=2"])`
yields `{a: 2}` — because each binding goes through overwriting map
insertion. -/
theorem claim_C7 :
    parseParams [] (["a=1", "a=2"]) = Except.ok [("a", (2 : ℚ))] ∧
    ∀ (ctls : ControlMap) (k : String) (q : ℚ),
      mapLookup (mapInsert ctls k q) k = some q := by
  constructor
  · simp +decide [parseParams, splitOnEq, splitEq, ParseFloat, parseFloatCore,
      parseMantissa, digitsVal, mapInsert]
  · exact fun ctls k q => mapLookup_mapInsert_self ctls k q

/-- C6: a well-shaped `key=value` whose value segment is unparsable fails
with the invalid-number error wrapping the underlying failure message; a
parsable value segment is bound to the key; `Parse(["a=1.5","b=-2"])`
yields `{a: 3/2, b: -2}`. -/
theorem claim_C6 :
    (∀ (ctls : ControlMap) (param : String) (rest : List String) (k v : String)
        (t : List String) (e : String),
        splitOnEq param = k :: v :: t → ParseFloat v = Except.error e →
        parseParams ctls (param :: rest) = Except.error (Err.parsingControlValue e) ∧
        (Err.parsingControlValue e).message = "parsing control value: " ++ e) ∧
    (∀ (ctls : ControlMap) (param : String) (rest : List String) (k v : String)
        (t : List String) (q : ℚ),
        splitOnEq param = k :: v :: t → ParseFloat v = Except.ok q →
        parseParams ctls (param :: rest) = parseParams (mapInsert ctls k q) rest) ∧
    parseParams [] (["a=1.5", "b=-2"]) =
      Except.ok [("a", (3 : ℚ) / 2), ("b", (-2 : ℚ))] := by
  refine ⟨?_, ?_, ?_⟩
  · intro ctls param rest k v t e hsplit hv
    rw [parseParams, hsplit]
    dsimp only
    rw [hv]
    exact ⟨rfl, rfl⟩
  · intro ctls param rest k v t q hsplit hv
    rw [parseParams, hsplit]
    dsimp only
    rw [hv]
  · simp +decide [parseParams, splitOnEq, splitEq, ParseFloat, parseFloatCore,
      parseMantissa, digitsVal, mapInsert]
    norm_num

/-- Witness for C6: "a=xyz" fails with the wrapped strconv message. -/
theorem claim_C6_witness :
    parseParams [] (["a=xyz"]) = Except.error (Err.parsingControlValue
      ("strconv.ParseFloat: parsing " ++ goQuote ("xyz") ++ ": invalid syntax")) :=
  (claim_C6.1 [] ("a=xyz") [] ("a") ("xyz") []
    ("strconv.ParseFloat: parsing " ++ goQuote ("xyz") ++ ": invalid syntax")
    (by decide) (by decide)).1

/-- C8: with the list flag set, `Run` lists and succeeds whatever the
sound name, arguments and backend are; otherwise it is exactly
`Play(app.sound, args)`. -/
theorem claim_C8 (app : App) (backend : Backend) (args : List String) :
    (app.list = true →
      app.Run backend args = (app.listNames, Except.ok ()) ∧
      ∀ (s : String) (args2 : List String) (b2 : Backend),
        App.Run { app with sound := s } b2 args2 = app.Run backend args) ∧
    (app.list = false → app.Run backend args = ([], app.Play backend app.sound args)) := by
  constructor
  · intro h
    constructor
    · simp [App.Run, h]
    · intro s args2 b2
      simp [App.Run, h, App.listNames]
  · intro h
    simp [App.Run, h]

/-- Witness for C8: a listing app ignores its arguments and succeeds. -/
theorem claim_C8_witness :
    App.Run { list := true, sound := "x", m := [] } (fun _ _ => none) (["junk"]) =
      (App.listNames { list := true, sound := "x", m := [] }, Except.ok ()) :=
  ((claim_C8 { list := true, sound := "x", m := [] } (fun _ _ => none) (["junk"])).1
    rfl).1

/-- C9: a parameter of the shape `key=` splits into two segments, so the
shape check passes and the empty value segment fails numeric parsing: the
error is the invalid-number one, not the malformed-parameter one. -/
theorem claim_C9 (kc : List Char) (ctls : ControlMap) (rest : List String)
    (h : '=' ∉ kc) :
    parseParams ctls (String.mk (kc ++ ['=']) :: rest) =
      Except.error (Err.parsingControlValue
        ("strconv.ParseFloat: parsing " ++ goQuote ("") ++ ": invalid syntax")) ∧
    ∀ p : String,
      Err.parsingControlValue
        ("strconv.ParseFloat: parsing " ++ goQuote ("") ++ ": invalid syntax") ≠
      Err.malformedParam p := by
  have hs : splitOnEq (String.mk (kc ++ ['='])) = [String.mk kc, String.mk []] := by
    unfold splitOnEq
    rw [show (String.mk (kc ++ ['='])).data = kc ++ ['='] from rfl,
      splitEq_append_eq kc h]
    rfl
  have hv : ParseFloat (String.mk []) = Except.error
      ("strconv.ParseFloat: parsing " ++ goQuote ("") ++ ": invalid syntax") := by
    decide
  constructor
  · rw [parseParams, hs]
    dsimp only
    rw [hv]
  · intro p hcontra
    cases hcontra

/-- Witness for C9: the parameter "freq=". -/
theorem claim_C9_witness :
    parseParams [] (String.mk (['f', 'r', 'e', 'q'] ++ ['=']) :: []) =
      Except.error (Err.parsingControlValue
        ("strconv.ParseFloat: parsing " ++ goQuote ("") ++ ": invalid syntax")) :=
  (claim_C9 (['f', 'r', 'e', 'q']) [] [] (by decide)).1

/-- C10: names are not validated at registration: `Add("", f)` succeeds on
an empty registry, stores a definition under the empty name, and a later
`Play("", params)` resolves it instead of failing as unrecognized. -/
theorem claim_C10 (f : UgenFunc) (backend : Backend) (params : List String) :
    ∃ app2 : App, New.Add ("") f = Except.ok app2 ∧
      mapLookup app2.m ("") = some (NewSynthdef ("") f) ∧
      app2.Play backend ("") params ≠ Except.error (Err.unrecognizedSound ("")) := by
  refine ⟨{ list := false, sound := "", m := [("", NewSynthdef ("") f)] }, rfl, ?_, ?_⟩
  · simp [mapLookup]
  · have hl : mapLookup [(("" : String), NewSynthdef ("") f)] ("") =
        some (NewSynthdef ("") f) := by simp [mapLookup]
    intro hcontra
    cases hp : parseParams [] params with
    | error e =>
      simp only [App.Play, hl, hp] at hcontra
      rcases parseParams_error_shape [] params e hp with ⟨p, rfl⟩ | ⟨cause, rfl⟩ <;>
        cases hcontra
    | ok ctls =>
      cases hb : backend (NewSynthdef ("") f) ctls with
      | none =>
        simp only [App.Play, hl, hp, hb] at hcontra
        cases hcontra
      | some b =>
        simp only [App.Play, hl, hp, hb] at hcontra
        cases hcontra

/-- C1 as amended: the parsing loop splits a raw parameter on every `'='`
and uses only the first two segments — key and value — ignoring the rest,
so `a=b=c` yields key `a` with value-string `b` (not `b=c`), which fails
numeric parsing, while a parameter whose second segment is numeric, such
as `x=5=9`, parses successfully. -/
theorem claim_C1 :
    (∀ (ctls : ControlMap) (param : String) (rest : List String) (k v : String)
        (t : List String),
        splitOnEq param = k :: v :: t →
        parseParams ctls (param :: rest) =
          (match ParseFloat v with
           | Except.error e => Except.error (Err.parsingControlValue e)
           | Except.ok fv => parseParams (mapInsert ctls k fv) rest)) ∧
    splitOnEq ("a=b=c") = ["a", "b", "c"] ∧
    parseParams [] (["a=b=c"]) = Except.error (Err.parsingControlValue
      ("strconv.ParseFloat: parsing " ++ goQuote ("b") ++ ": invalid syntax")) := by
  refine ⟨?_, by decide, by decide⟩
  intro ctls param rest k v t hsplit
  rw [parseParams, hsplit]

/-- Counterexample to C1 as stated: "a=1=2" has two `'='` characters, yet
the parse succeeds — the value-string used is "1", not "1=2", so no error
is returned. -/
theorem claim_C1_counterexample :
    parseParams [] (["a=1=2"]) = Except.ok [("a", (1 : ℚ))] ∧
    splitOnEq ("a=1=2") = ["a", "1", "2"] := by
  constructor
  · simp +decide [parseParams, splitOnEq, splitEq, ParseFloat, parseFloatCore,
      parseMantissa, digitsVal, mapInsert]
  · decide

/-- Witness for C1 (amended): applying the split policy to "x=5=9". -/
theorem claim_C1_witness :
    parseParams [] (["x=5=9"]) = Except.ok [("x", (5 : ℚ))] := by
  have h := claim_C1.1 [] ("x=5=9") [] ("x") ("5") (["9"]) (by decide)
  rw [h]
  have hv : ParseFloat ("5") = Except.ok ((5 : ℚ)) := by
    simp +decide [ParseFloat, parseFloatCore, parseMantissa, digitsVal]
  rw [hv]
  rfl
